import Mathlib

/-!
Verification of the two subsystems in this repository slice:

* the USD scene-import adapter (`source/blender/io/usd/intern/usd_reader_stage.cc`),
  embedded below in namespace `USD`; and
* the keyframe timeline index (`source/blender/editors/include/ED_keyframes_keylist.h`),
  embedded below in namespace `Keylist`.

The embedding of the adapter follows the source file function by function.
Prims are modelled as a tree of nodes carrying exactly the attributes the
adapter queries (schema type, visibility attribute, purpose attribute,
authored-transform-ops flag, instance-proxy flag, pseudo-root flag).
A prim's schema type is a single tag; the `IsA` subtype tests of the source
become tag comparisons, with `IsA<UsdGeomImageable>` holding for every tag
except `nonImageable` (all geometric, light, volume, xform and scope schemas
derive from Imageable).  `GetParent().IsA<UsdGeomXform>()` is snapshot into
the reader at creation time from the traversal context (the stage is
immutable, so the parent's type never changes); readers returned upward by
a merge carry `useParentXform = true` and are rejected by the merge test
before the parent field is consulted, so the snapshot is equivalent to the
source's on-demand query.
-/

namespace USD

/-- The concrete schema type of a prim.  Every tag except `nonImageable`
answers true to `IsA<UsdGeomImageable>`. -/
inductive PrimTy where
  | camera
  | basisCurves
  | nurbsCurves
  | mesh
  | light
  | volume
  | xform
  | scope
  | otherImageable
  | nonImageable
deriving DecidableEq, Repr, Inhabited

/-- `prim.IsA<pxr::UsdGeomImageable>()`: every schema in the slice except a
non-imageable (typeless or non-geometric) prim derives from Imageable. -/
def PrimTy.isImageable : PrimTy → Bool
  | .nonImageable => false
  | _ => true

/-- A visibility attribute: whether `ValueMightBeTimeVarying()` holds and the
token obtained by `Get` (a `TfToken`, modelled as a string). -/
structure VisAttr where
  mightBeTimeVarying : Bool
  value : String
deriving DecidableEq, Repr, Inhabited

/-- The per-prim data the adapter queries.  `visibilityAttr`/`purposeAttr`
are `none` when `GetVisibilityAttr()`/`GetPurposeAttr()` yields an invalid
attribute.  `hasXformOps` is `prim_has_xform_ops()` for the prim.
`isInstanceProxy` records whether the prim is excluded by
`UsdPrimDefaultPredicate` and admitted only by `UsdTraverseInstanceProxies`. -/
structure PrimData where
  ty : PrimTy
  isPseudoRoot : Bool := false
  visibilityAttr : Option VisAttr := none
  purposeAttr : Option String := none
  hasXformOps : Bool := false
  isInstanceProxy : Bool := false
deriving DecidableEq, Repr, Inhabited

/-- A prim: its data and its children in the stage's native child order. -/
inductive Prim where
  | mk (data : PrimData) (children : List Prim)

instance : Inhabited Prim := ⟨.mk default []⟩

def Prim.data : Prim → PrimData
  | .mk d _ => d

def Prim.children : Prim → List Prim
  | .mk _ cs => cs

/-- `USDImportParams`: the fields read by this source file. -/
structure Params where
  import_cameras : Bool := true
  import_curves : Bool := true
  import_meshes : Bool := true
  import_lights : Bool := true
  import_volumes : Bool := true
  import_instance_proxies : Bool := false
  import_visible_only : Bool := false
  import_guide : Bool := true
  import_proxy : Bool := true
  import_render : Bool := true
  prim_path_mask : String := ""
deriving DecidableEq, Repr, Inhabited

/-- Which concrete reader class a prim received. -/
inductive ReaderKind where
  | camera
  | curves
  | nurbs
  | mesh
  | light
  | volume
  | xform
deriving DecidableEq, Repr, Inhabited

/-- Modelled from the spec: the PrimReader polymorphic family
{Camera, BasisCurves, NurbsCurves, Mesh, Light, Volume, Xform} is the
"transform-capable (Xform-family)" hierarchy — every concrete reader the
adapter creates derives from the Xform reader (the reader class definitions
are outside this source slice), so the `dynamic_cast<USDXformReader *>` in
`merge_with_parent` succeeds on each of them. -/
def ReaderKind.isXformFamily : ReaderKind → Bool
  | _ => true

/-- A live `USDPrimReader`.  `primData` is the wrapped prim's data,
`parentIsXform` snapshots `prim().GetParent().IsA<pxr::UsdGeomXform>()`,
`useParentXform` is the Xform reader's merge flag, `parent` the index of the
parent reader in the registry, `refcount` the reference count and
`objectCreated` whether `create_object` has run.  Modelled from the spec:
a reader is created with reference count zero and reaches one on
registration (the PrimReader constructor is outside this slice). -/
structure Reader where
  kind : ReaderKind
  primData : PrimData
  parentIsXform : Bool
  useParentXform : Bool := false
  parent : Option Nat := none
  refcount : Nat := 0
  objectCreated : Bool := false
deriving DecidableEq, Repr, Inhabited

/-- `USDStageReader::include_by_visibility`. -/
def include_by_visibility (p : Params) (d : PrimData) : Bool :=
  if !p.import_visible_only then
    true
  else
    match d.visibilityAttr with
    | none => true
    | some attr =>
      if attr.mightBeTimeVarying then
        true
      else
        attr.value != "invisible"

/-- `USDStageReader::include_by_purpose`. -/
def include_by_purpose (p : Params) (d : PrimData) : Bool :=
  if p.import_guide && p.import_proxy && p.import_render then
    true
  else
    match d.purposeAttr with
    | none => true
    | some purpose =>
      if purpose == "guide" then p.import_guide
      else if purpose == "proxy" then p.import_proxy
      else if purpose == "render" then p.import_render
      else true

/-- `USDStageReader::create_reader_if_allowed`: the chain of
`params_.import_X && prim.IsA<...>` tests, with the imageable fallback.
`parentIsXform` is the snapshot stored into the new reader. -/
def create_reader_if_allowed (p : Params) (d : PrimData) (parentIsXform : Bool) :
    Option Reader :=
  if p.import_cameras && (d.ty == .camera) then
    some { kind := .camera, primData := d, parentIsXform := parentIsXform }
  else if p.import_curves && (d.ty == .basisCurves) then
    some { kind := .curves, primData := d, parentIsXform := parentIsXform }
  else if p.import_curves && (d.ty == .nurbsCurves) then
    some { kind := .nurbs, primData := d, parentIsXform := parentIsXform }
  else if p.import_meshes && (d.ty == .mesh) then
    some { kind := .mesh, primData := d, parentIsXform := parentIsXform }
  else if p.import_lights && (d.ty == .light) then
    some { kind := .light, primData := d, parentIsXform := parentIsXform }
  else if p.import_volumes && (d.ty == .volume) then
    some { kind := .volume, primData := d, parentIsXform := parentIsXform }
  else if d.ty.isImageable then
    some { kind := .xform, primData := d, parentIsXform := parentIsXform }
  else
    none

/-- `merge_with_parent` (static helper): returns whether the merge succeeded
together with the (possibly flagged) reader — the source mutates the reader
through a pointer. -/
def merge_with_parent (r : Reader) : Bool × Reader :=
  if !r.kind.isXformFamily then
    (false, r)
  else if r.useParentXform then
    (false, r)
  else if !r.parentIsXform then
    (false, r)
  else if r.primData.ty == .xform || r.primData.ty == .scope then
    (false, r)
  else if r.primData.hasXformOps then
    (false, r)
  else
    (true, { r with useParentXform := true })

/-- The adapter's mutable traversal state: the `readers_` vector.  Readers
are identified by their index in the vector. -/
structure TravState where
  readers : List Reader
deriving DecidableEq, Repr, Inhabited

/-- The tail of `USDStageReader::collect_readers(Main *, const UsdPrim &)`
once the child readers are collected and the merge was not taken:
`create_reader_if_allowed`, `create_object`, `push_back` + `incref`, and the
child `parent` wiring. -/
def finish_prim (p : Params) (d : PrimData) (parentIsXform : Bool)
    (childIds : List Nat) (st : TravState) : Option Nat × TravState :=
  match create_reader_if_allowed p d parentIsXform with
  | none => (none, st)
  | some r =>
    let r := { r with objectCreated := true }
    let id := st.readers.length
    let rs := st.readers ++ [{ r with refcount := r.refcount + 1 }]
    let rs := childIds.foldl
      (fun rs cid => rs.set cid { rs.getD cid default with parent := some id }) rs
    (some id, ⟨rs⟩)

mutual

/-- `USDStageReader::collect_readers(Main *, const UsdPrim &)`: the recursive
traversal.  `parentTy` is the schema type of the prim whose child enumeration
produced this prim (`none` at the traversal root).  Returns the index of the
reader handed upward, if any, and the updated registry. -/
def collect_readers_prim (p : Params) (parentTy : Option PrimTy) :
    Prim → TravState → Option Nat × TravState
  | .mk d children, st =>
    if d.ty.isImageable && (!include_by_purpose p d || !include_by_visibility p d) then
      (none, st)
    else
      let res := collect_children p d.ty children st
      let childIds := res.1
      let st1 := res.2
      if d.isPseudoRoot then
        (none, st1)
      else
        match childIds with
        | [cid] =>
          let r := st1.readers.getD cid default
          if (merge_with_parent r).1 then
            (some cid, ⟨st1.readers.set cid (merge_with_parent r).2⟩)
          else
            finish_prim p d (parentTy == some .xform) childIds st1
        | _ => finish_prim p d (parentTy == some .xform) childIds st1

/-- The child loop over `GetFilteredChildren`: children are visited in the
stage's native order; a child excluded by the default predicate (an instance
proxy) is enumerated only when `import_instance_proxies` widens the
predicate.  Collects the indices of the readers the children produced. -/
def collect_children (p : Params) (parentTy : PrimTy) :
    List Prim → TravState → List Nat × TravState
  | [], st => ([], st)
  | c :: cs, st =>
    if p.import_instance_proxies || !c.data.isInstanceProxy then
      let res := collect_readers_prim p (some parentTy) c st
      let rest := collect_children p parentTy cs res.2
      match res.1 with
      | some id => (id :: rest.1, rest.2)
      | none => rest
    else
      collect_children p parentTy cs st

end

/-- The external stage: its pseudo-root prim, the `GetPrimAtPath` mapping
(a prim is `IsValid` exactly when the lookup succeeds), and the
stage-level interpolation-type setting. -/
structure Stage where
  pseudoRoot : Prim
  paths : List (String × Prim) := []
  interpolationHeld : Bool := false

instance : Inhabited Stage := ⟨⟨default, [], false⟩⟩

/-- `stage_->GetPrimAtPath(SdfPath(path))` followed by `IsValid()`. -/
def Stage.getPrimAtPath (s : Stage) (path : String) : Option Prim :=
  s.paths.lookup path

/-- `USDStageReader`: the stage handle (`none` models an invalid handle),
the import parameters, the `readers_` registry, and — to state deallocation
— the list of readers `delete`d so far. -/
structure StageReader where
  stage_ : Option Stage
  params_ : Params
  readers_ : List Reader := []
  freed : List Reader := []

instance : Inhabited StageReader := ⟨⟨none, default, [], []⟩⟩

/-- `USDStageReader::valid`. -/
def StageReader.valid (sr : StageReader) : Bool :=
  sr.stage_.isSome

/-- `USDStageReader::clear_readers`: decrement every reader's count, delete
those whose count reaches zero, then clear the vector.  A reader whose count
stays positive is dropped from the registry without being deleted. -/
def clear_readers (sr : StageReader) : StageReader :=
  let dec := sr.readers_.map (fun r => { r with refcount := r.refcount - 1 })
  { sr with
    readers_ := [],
    freed := sr.freed ++ dec.filter (fun r => r.refcount == 0) }

/-- `USDStageReader::collect_readers(Main *)`: the entry point.  Returns the
updated adapter and whether the bad-path-mask warning was printed. -/
def collect_readers_main (sr : StageReader) : StageReader × Bool :=
  match sr.stage_ with
  | none => (sr, false)
  | some stage =>
    let sr1 := clear_readers sr
    let mask := sr1.params_.prim_path_mask
    let rootWarn : Prim × Bool :=
      if mask != "" then
        match stage.getPrimAtPath mask with
        | some prim => (prim, false)
        | none => (stage.pseudoRoot, true)
      else
        (stage.pseudoRoot, false)
    let stage1 := { stage with interpolationHeld := true }
    let res := collect_readers_prim sr1.params_ none rootWarn.1 ⟨sr1.readers_⟩
    ({ sr1 with stage_ := some stage1, readers_ := res.2.readers }, rootWarn.2)

end USD

namespace Keylist

/-- `eKeyframeHandleDrawOpts` from `ED_keyframes_keylist.h`: the handle
visualization categories, listed in the header's order ("various marks in
order of increasing display priority"). -/
inductive eKeyframeHandleDrawOpts where
  | KEYFRAME_HANDLE_NONE
  | KEYFRAME_HANDLE_AUTO_CLAMP
  | KEYFRAME_HANDLE_AUTO
  | KEYFRAME_HANDLE_VECTOR
  | KEYFRAME_HANDLE_ALIGNED
  | KEYFRAME_HANDLE_FREE
deriving DecidableEq, Repr, Inhabited, Fintype

/-- The C enumerant value of each handle category (`KEYFRAME_HANDLE_NONE = 0`,
the rest implicitly increment). -/
def eKeyframeHandleDrawOpts.val : eKeyframeHandleDrawOpts → Nat
  | .KEYFRAME_HANDLE_NONE => 0
  | .KEYFRAME_HANDLE_AUTO_CLAMP => 1
  | .KEYFRAME_HANDLE_AUTO => 2
  | .KEYFRAME_HANDLE_VECTOR => 3
  | .KEYFRAME_HANDLE_ALIGNED => 4
  | .KEYFRAME_HANDLE_FREE => 5

/-- `ActKeyBlockInfo`: hold flags, conflict mask and selection for the
interval from a column to its successor. -/
structure ActKeyBlockInfo where
  flag : Nat := 0
  conflict : Nat := 0
  sel : Nat := 0
deriving DecidableEq, Repr, Inhabited

/-- `ActKeyColumn` from `ED_keyframes_keylist.h`, payload fields only (the
intrusive tree/list linkage pointers are memory layout, not data).  `cfra`
is the float frame time, modelled as a rational. -/
structure ActKeyColumn where
  key_type : Nat := 0
  handle_type : eKeyframeHandleDrawOpts := .KEYFRAME_HANDLE_NONE
  extreme_type : Nat := 0
  sel : Nat := 0
  cfra : ℚ
  block : ActKeyBlockInfo := {}
  totcurve : Nat := 0
  totkey : Nat := 0
  totblock : Nat := 0
deriving DecidableEq, Repr, Inhabited

/-- Modelled from the spec: `AnimKeylist` (the implementation file is not in
this slice — only the header is).  "An opaque ordered container of
TimeColumns keyed by `time` … with stable iteration order", modelled as the
list of columns in ascending-time order. -/
structure AnimKeylist where
  columns : List ActKeyColumn
deriving DecidableEq, Repr, Inhabited

/-- The ordering invariant of a populated keylist: columns appear in strictly
ascending time order (equal times are merged, never duplicated). -/
@[reducible] def AnimKeylist.Sorted (kl : AnimKeylist) : Prop :=
  kl.columns.Pairwise (fun a b => a.cfra < b.cfra)

/-- Modelled from the spec: `ED_keylist_find_exact` — "column at exactly
`time`, or none; equality on the float key; exact match only". -/
def ED_keylist_find_exact (kl : AnimKeylist) (cfra : ℚ) : Option ActKeyColumn :=
  kl.columns.find? (fun c => decide (c.cfra = cfra))

/-- Modelled from the spec: `ED_keylist_find_next` — "first column with time
strictly greater than `time`, or none". -/
def ED_keylist_find_next (kl : AnimKeylist) (cfra : ℚ) : Option ActKeyColumn :=
  kl.columns.find? (fun c => decide (cfra < c.cfra))

/-- Modelled from the spec: `ED_keylist_find_prev` — "last column with time
strictly less than `time`, or none". -/
def ED_keylist_find_prev (kl : AnimKeylist) (cfra : ℚ) : Option ActKeyColumn :=
  kl.columns.reverse.find? (fun c => decide (c.cfra < cfra))

/-- Modelled from the spec: `ED_keylist_find_any_between` — "any one column
with `minTime < time < maxTime`, or none; existence check". -/
def ED_keylist_find_any_between (kl : AnimKeylist) (min_fra max_fra : ℚ) :
    Option ActKeyColumn :=
  kl.columns.find? (fun c => decide (min_fra < c.cfra) && decide (c.cfra < max_fra))

/-- Modelled from the spec: the keylist merge rule for `handleDrawFlag` —
"highest-priority handle-visualization category among contributing curves
… higher enumerant wins when curves disagree" (the merge implementation is
not in this slice). -/
def merge_handle_type (a b : eKeyframeHandleDrawOpts) : eKeyframeHandleDrawOpts :=
  if a.val < b.val then b else a

end Keylist

namespace USD

/-! Concrete stages used by the scenario conjuncts and witnesses. -/

/-- Default import parameters (everything enabled except visible-only and
instance proxies, no mask). -/
def P0 : Params := {}

def meshData : PrimData := { ty := .mesh }

def meshPrim : Prim := .mk meshData []

def xformData : PrimData := { ty := .xform }

/-- A generic transform prim whose only child is a mesh prim with no
authored transform ops (spec scenario "Xform merge"). -/
def xformPrim : Prim := .mk xformData [meshPrim]

def rootA : Prim := .mk { ty := .nonImageable, isPseudoRoot := true } [xformPrim]

def meshOpsData : PrimData := { ty := .mesh, hasXformOps := true }

def meshOpsPrim : Prim := .mk meshOpsData []

/-- The same transform prim but whose mesh child carries an authored
transform op (spec scenario "Xform merge suppression"). -/
def xformOpsPrim : Prim := .mk xformData [meshOpsPrim]

def rootB : Prim := .mk { ty := .nonImageable, isPseudoRoot := true } [xformOpsPrim]

def innerData : PrimData := { ty := .nonImageable }

/-- A non-imageable prim (matching no reader case) holding a mesh child. -/
def innerPrim : Prim := .mk innerData [meshPrim]

def rootC : Prim := .mk { ty := .nonImageable, isPseudoRoot := true }
  [.mk xformData [innerPrim]]

/-! Helper lemmas. -/

/-- `include_by_purpose` never reads the path mask. -/
theorem include_by_purpose_mask (p : Params) (s : String) (d : PrimData) :
    include_by_purpose { p with prim_path_mask := s } d = include_by_purpose p d := rfl

/-- `include_by_visibility` never reads the path mask. -/
theorem include_by_visibility_mask (p : Params) (s : String) (d : PrimData) :
    include_by_visibility { p with prim_path_mask := s } d = include_by_visibility p d := rfl

/-- `finish_prim` never reads the path mask. -/
theorem finish_prim_mask (p : Params) (s : String) (d : PrimData) (b : Bool)
    (ids : List Nat) (st : TravState) :
    finish_prim { p with prim_path_mask := s } d b ids st = finish_prim p d b ids st := rfl

mutual

/-- The recursive traversal never reads the path mask. -/
theorem collect_readers_prim_mask (p : Params) (s : String) (pt : Option PrimTy) :
    ∀ (prim : Prim) (st : TravState),
      collect_readers_prim { p with prim_path_mask := s } pt prim st =
        collect_readers_prim p pt prim st
  | .mk d children, st => by
    rw [collect_readers_prim, collect_readers_prim]
    rw [collect_children_mask p s d.ty children st]
    simp only [include_by_purpose_mask, include_by_visibility_mask, finish_prim_mask]

/-- The child loop never reads the path mask. -/
theorem collect_children_mask (p : Params) (s : String) (pt : PrimTy) :
    ∀ (cs : List Prim) (st : TravState),
      collect_children { p with prim_path_mask := s } pt cs st =
        collect_children p pt cs st
  | [], st => by rw [collect_children, collect_children]
  | c :: cs, st => by
    rw [collect_children, collect_children]
    simp only [collect_readers_prim_mask p s (some pt) c st]
    rw [collect_children_mask p s pt cs (collect_readers_prim p (some pt) c st).2,
      collect_children_mask p s pt cs st]

end

/-- Characterization of `merge_with_parent`: it succeeds exactly under the
five conditions of the source, flags the reader on success and leaves it
untouched on failure. -/
theorem merge_with_parent_spec (r : Reader) :
    ((merge_with_parent r).1 = true ↔
      (r.kind.isXformFamily = true ∧ r.useParentXform = false ∧
       r.parentIsXform = true ∧ r.primData.ty ≠ PrimTy.xform ∧
       r.primData.ty ≠ PrimTy.scope ∧ r.primData.hasXformOps = false)) ∧
    ((merge_with_parent r).1 = true →
      (merge_with_parent r).2 = { r with useParentXform := true }) ∧
    ((merge_with_parent r).1 = false → (merge_with_parent r).2 = r) := by
  refine ⟨?_, ?_, ?_⟩ <;>
    · unfold merge_with_parent
      split_ifs <;> simp_all [ReaderKind.isXformFamily] <;> tauto

/-- C1: when a prim's recursion produced exactly one child reader, the
node's transform is merged into the child iff the child reader is an
Xform-family reader that is not already flagged as using its parent's
transform, whose prim's direct parent is a generic Xform prim, whose prim
is neither an Xform nor a Scope, and whose prim has no authored transform
ops; on success no reader is created for the current prim, the child is
flagged and returned upward in the parent's place; on failure both parent
and child produce readers, the child parented under the parent's.  The last
two conjuncts evaluate the two spec scenarios (merge, and merge suppression
by authored ops) on concrete stages. -/
theorem usd_xform_merge_correct :
    (∀ r : Reader,
      ((merge_with_parent r).1 = true ↔
        (r.kind.isXformFamily = true ∧ r.useParentXform = false ∧
         r.parentIsXform = true ∧ r.primData.ty ≠ PrimTy.xform ∧
         r.primData.ty ≠ PrimTy.scope ∧ r.primData.hasXformOps = false)) ∧
      ((merge_with_parent r).1 = true →
        (merge_with_parent r).2 = { r with useParentXform := true })) ∧
    (∀ (p : Params) (pt : Option PrimTy) (d : PrimData) (children : List Prim)
       (cid : Nat) (st st1 : TravState) (r : Reader),
      (d.ty.isImageable && (!include_by_purpose p d || !include_by_visibility p d)) = false →
      d.isPseudoRoot = false →
      collect_children p d.ty children st = ([cid], st1) →
      st1.readers.getD cid default = r →
      (merge_with_parent r).1 = true →
      collect_readers_prim p pt (.mk d children) st =
        (some cid, ⟨st1.readers.set cid { r with useParentXform := true }⟩)) ∧
    (∀ (p : Params) (pt : Option PrimTy) (d : PrimData) (children : List Prim)
       (cid : Nat) (st st1 : TravState) (r r0 : Reader),
      (d.ty.isImageable && (!include_by_purpose p d || !include_by_visibility p d)) = false →
      d.isPseudoRoot = false →
      collect_children p d.ty children st = ([cid], st1) →
      st1.readers.getD cid default = r →
      (merge_with_parent r).1 = false →
      create_reader_if_allowed p d (pt == some .xform) = some r0 →
      cid < st1.readers.length →
      collect_readers_prim p pt (.mk d children) st =
        (some st1.readers.length,
         ⟨(st1.readers ++
             [{ r0 with objectCreated := true, refcount := r0.refcount + 1 }]).set cid
            { r with parent := some st1.readers.length }⟩)) ∧
    (collect_readers_prim P0 none rootA ⟨[]⟩ =
      (none, ⟨[{ kind := .mesh, primData := meshData, parentIsXform := true,
                 useParentXform := true, parent := none, refcount := 1,
                 objectCreated := true }]⟩)) ∧
    (collect_readers_prim P0 none rootB ⟨[]⟩ =
      (none, ⟨[{ kind := .mesh, primData := meshOpsData, parentIsXform := true,
                 useParentXform := false, parent := some 1, refcount := 1,
                 objectCreated := true },
               { kind := .xform, primData := xformData, parentIsXform := false,
                 useParentXform := false, parent := none, refcount := 1,
                 objectCreated := true }]⟩)) := by
  refine ⟨?_, ?_, ?_, by decide, by decide⟩
  · intro r
    exact ⟨(merge_with_parent_spec r).1, (merge_with_parent_spec r).2.1⟩
  · intro p pt d children cid st st1 r h1 h2 h3 hr h4
    rw [collect_readers_prim, h3]
    simp only [h1, h2, hr, h4, Bool.false_eq_true, if_false, if_true]
    rw [(merge_with_parent_spec r).2.1 h4]
  · intro p pt d children cid st st1 r r0 h1 h2 h3 hr h4 hcr hlt
    rw [collect_readers_prim, h3]
    simp only [h1, h2, hr, h4, Bool.false_eq_true, if_false, if_true]
    rw [finish_prim, hcr]
    simp only [List.foldl_cons, List.foldl_nil]
    rw [List.getD_append _ _ _ _ hlt, hr]

/-- C1 witness: the merge frame evaluated on the concrete Xform-over-mesh
stage: the single mesh child reader is flagged and returned in the parent's
place. -/
theorem usd_xform_merge_correct_witness :
    collect_readers_prim P0 none xformPrim ⟨[]⟩ =
      (some 0,
       ⟨[{ kind := .mesh, primData := meshData, parentIsXform := true,
           useParentXform := true, parent := none, refcount := 1,
           objectCreated := true }]⟩) :=
  usd_xform_merge_correct.2.1 P0 none xformData [meshPrim] 0 ⟨[]⟩
    ⟨[{ kind := .mesh, primData := meshData, parentIsXform := true,
        useParentXform := false, parent := none, refcount := 1,
        objectCreated := true }]⟩
    { kind := .mesh, primData := meshData, parentIsXform := true,
      useParentXform := false, parent := none, refcount := 1,
      objectCreated := true }
    (by decide) (by decide) (by decide) (by decide) (by decide)

/-- C2 counterexample: `collect_readers` on an invalid stage returns before
`clear_readers`, so an adapter state holding a previously collected reader
keeps a non-empty registry — the claimed "clears any previously collected
readers / the registry is empty afterwards" fails. -/
theorem usd_collect_invalid_counterexample :
    (collect_readers_main
      { stage_ := none, params_ := P0,
        readers_ := [{ kind := .mesh, primData := meshData,
                       parentIsXform := false, refcount := 1 }],
        freed := [] }).1.readers_ ≠ [] := by
  decide

/-- C2 (amended): `collect_readers` on an adapter whose stage handle is not
valid returns immediately — before the `clear_readers` call — leaving the
whole adapter state, including the reader registry, unchanged, and raising
no error or warning. -/
theorem usd_collect_invalid_noop (sr : StageReader) (h : sr.stage_ = none) :
    collect_readers_main sr = (sr, false) := by
  simp [collect_readers_main, h]

/-- C2 witness: the amended no-op theorem at a concrete invalid-stage
adapter. -/
theorem usd_collect_invalid_noop_witness :
    collect_readers_main { stage_ := none, params_ := P0 } =
      ({ stage_ := none, params_ := P0 }, false) :=
  usd_collect_invalid_noop { stage_ := none, params_ := P0 } rfl

def invisData : PrimData :=
  { ty := .mesh,
    visibilityAttr := some { mightBeTimeVarying := false, value := "invisible" } }

def Pvis : Params := { import_visible_only := true }

/-- C3: the visibility filter admits every prim when "visible only" is off;
when on, it admits a prim with no visibility attribute, admits a prim with a
possibly time-varying visibility attribute, and otherwise admits the prim
exactly when its static value is not the "invisible" token; a rejected
imageable prim yields no reader and its whole subtree is skipped (the state
is returned untouched). -/
theorem usd_visibility_filter :
    (∀ (p : Params) (d : PrimData), p.import_visible_only = false →
      include_by_visibility p d = true) ∧
    (∀ (p : Params) (d : PrimData), d.visibilityAttr = none →
      include_by_visibility p d = true) ∧
    (∀ (p : Params) (d : PrimData) (a : VisAttr), d.visibilityAttr = some a →
      a.mightBeTimeVarying = true → include_by_visibility p d = true) ∧
    (∀ (p : Params) (d : PrimData) (a : VisAttr), p.import_visible_only = true →
      d.visibilityAttr = some a → a.mightBeTimeVarying = false →
      (include_by_visibility p d = true ↔ a.value ≠ "invisible")) ∧
    (∀ (p : Params) (pt : Option PrimTy) (d : PrimData) (children : List Prim)
       (st : TravState), d.ty.isImageable = true →
      include_by_visibility p d = false →
      collect_readers_prim p pt (.mk d children) st = (none, st)) := by
  refine ⟨?_, ?_, ?_, ?_, ?_⟩
  · intro p d h; simp [include_by_visibility, h]
  · intro p d h; simp [include_by_visibility, h]
  · intro p d a hd ha; simp [include_by_visibility, hd, ha]
  · intro p d a hp hd ha; simp [include_by_visibility, hp, hd, ha]
  · intro p pt d children st h1 h2
    rw [collect_readers_prim]
    simp [h1, h2]

/-- C3 witness: with "visible only" enabled, a mesh prim whose static
visibility is "invisible" is rejected: no reader is produced and its child
subtree is never traversed. -/
theorem usd_visibility_filter_witness :
    collect_readers_prim Pvis none (.mk invisData [meshPrim]) ⟨[]⟩ = (none, ⟨[]⟩) :=
  usd_visibility_filter.2.2.2.2 Pvis none invisData [meshPrim] ⟨[]⟩
    (by decide) (by decide)

def guideData : PrimData := { ty := .mesh, purposeAttr := some "guide" }

def renderData : PrimData := { ty := .mesh, purposeAttr := some "render" }

def noPurposeData : PrimData := { ty := .mesh }

def Pg : Params := { import_guide := false }

/-- C4: the purpose filter admits every prim when all three purpose options
are on, admits a prim with no purpose attribute, admits a prim whose
purpose is the guide/proxy/render token exactly when the corresponding
option is on, and admits any prim with an unknown purpose token. -/
theorem usd_purpose_filter :
    (∀ (p : Params) (d : PrimData), p.import_guide = true → p.import_proxy = true →
      p.import_render = true → include_by_purpose p d = true) ∧
    (∀ (p : Params) (d : PrimData), d.purposeAttr = none →
      include_by_purpose p d = true) ∧
    (∀ (p : Params) (d : PrimData), d.purposeAttr = some "guide" →
      include_by_purpose p d = p.import_guide) ∧
    (∀ (p : Params) (d : PrimData), d.purposeAttr = some "proxy" →
      include_by_purpose p d = p.import_proxy) ∧
    (∀ (p : Params) (d : PrimData), d.purposeAttr = some "render" →
      include_by_purpose p d = p.import_render) ∧
    (∀ (p : Params) (d : PrimData) (t : String), d.purposeAttr = some t →
      t ≠ "guide" → t ≠ "proxy" → t ≠ "render" →
      include_by_purpose p d = true) := by
  refine ⟨?_, ?_, ?_, ?_, ?_, ?_⟩
  · intro p d h1 h2 h3; simp [include_by_purpose, h1, h2, h3]
  · intro p d h
    by_cases hall : (p.import_guide && p.import_proxy && p.import_render) = true <;>
      simp [include_by_purpose, h, hall]
  · intro p d h
    by_cases hall : (p.import_guide && p.import_proxy && p.import_render) = true <;>
      simp_all [include_by_purpose, h, hall]
  · intro p d h
    by_cases hall : (p.import_guide && p.import_proxy && p.import_render) = true <;>
      simp_all [include_by_purpose, h, hall]
  · intro p d h
    by_cases hall : (p.import_guide && p.import_proxy && p.import_render) = true <;>
      simp_all [include_by_purpose, h, hall]
  · intro p d t h h1 h2 h3
    by_cases hall : (p.import_guide && p.import_proxy && p.import_render) = true <;>
      simp [include_by_purpose, h, hall, h1, h2, h3]

/-- C4 witness: guide-import disabled, proxy/render enabled — a "guide"
prim is excluded, a "render" prim included, a prim with no purpose
attribute included. -/
theorem usd_purpose_filter_witness :
    include_by_purpose Pg guideData = false ∧
    include_by_purpose Pg renderData = true ∧
    include_by_purpose Pg noPurposeData = true :=
  ⟨usd_purpose_filter.2.2.1 Pg guideData rfl,
   usd_purpose_filter.2.2.2.2.1 Pg renderData rfl,
   usd_purpose_filter.2.1 Pg noPurposeData rfl⟩

/-- The reader-selection rule as the spec words it: a type-specific reader
exactly when the prim's type is among the enabled import categories (camera,
basis-curves or nurbs-curves under the curves option, mesh, light, volume,
in that order), the generic transform/imageable (Xform) reader for every
remaining imageable prim, and no reader otherwise. -/
def readerKindSpecified (p : Params) (ty : PrimTy) : Option ReaderKind :=
  if ty == .camera && p.import_cameras then some .camera
  else if ty == .basisCurves && p.import_curves then some .curves
  else if ty == .nurbsCurves && p.import_curves then some .nurbs
  else if ty == .mesh && p.import_meshes then some .mesh
  else if ty == .light && p.import_lights then some .light
  else if ty == .volume && p.import_volumes then some .volume
  else if ty.isImageable then some .xform
  else none

/-- C6: `create_reader_if_allowed` creates exactly the reader the spec's
selection rule names — a type-specific reader when the prim's type is among
the enabled categories, the Xform fallback for every remaining imageable
prim, and none for a non-imageable prim. -/
theorem usd_reader_selection (p : Params) (d : PrimData) (b : Bool) :
    (create_reader_if_allowed p d b).map Reader.kind = readerKindSpecified p d.ty := by
  rcases d with ⟨ty, pr, va, pa, ops, ip⟩
  cases ty <;>
    simp [create_reader_if_allowed, readerKindSpecified, PrimTy.isImageable] <;>
    split_ifs <;> simp_all

theorem clear_readers_params (sr : StageReader) :
    (clear_readers sr).params_ = sr.params_ := rfl

theorem clear_readers_readers (sr : StageReader) :
    (clear_readers sr).readers_ = [] := rfl

theorem clear_readers_stage (sr : StageReader) :
    (clear_readers sr).stage_ = sr.stage_ := rfl

/-- C7: with a non-empty path mask, traversal is rooted at the prim the mask
resolves to; when the mask resolves to no prim, the warning is emitted and
the run completes rooted at the pseudo-root, producing the same reader
hierarchy as a run with no mask configured. -/
theorem usd_path_mask (sr : StageReader) (stage : Stage)
    (hs : sr.stage_ = some stage) (hm : sr.params_.prim_path_mask ≠ "") :
    (∀ prim, stage.getPrimAtPath sr.params_.prim_path_mask = some prim →
      collect_readers_main sr =
        ({ clear_readers sr with
            stage_ := some { stage with interpolationHeld := true },
            readers_ :=
              (collect_readers_prim sr.params_ none prim ⟨[]⟩).2.readers }, false)) ∧
    (stage.getPrimAtPath sr.params_.prim_path_mask = none →
      (collect_readers_main sr).2 = true ∧
      (collect_readers_main sr).1.readers_ =
        (collect_readers_main
          { sr with params_ :=
              { sr.params_ with prim_path_mask := "" } }).1.readers_) := by
  have hm' : (sr.params_.prim_path_mask != "") = true := bne_iff_ne.mpr hm
  constructor
  · intro prim hp
    simp only [collect_readers_main, hs, clear_readers_params, clear_readers_readers,
      hm', if_true, hp]
  · intro hp
    constructor
    · simp only [collect_readers_main, hs, clear_readers_params, hm', if_true, hp]
    · simp only [collect_readers_main, hs, clear_readers_params, clear_readers_readers,
        hm', if_true, hp, bne_self_eq_false, Bool.false_eq_true, if_false]
      rw [collect_readers_prim_mask sr.params_ "" none stage.pseudoRoot ⟨[]⟩]

/-- C7 witness: a stage whose configured mask "/Bad" resolves to no prim —
the run warns and its registry equals the registry of the maskless run. -/
theorem usd_path_mask_witness :
    (collect_readers_main
      { stage_ := some { pseudoRoot := rootA, paths := [("/Root/Xform", xformPrim)] },
        params_ := { prim_path_mask := "/Bad" } }).2 = true ∧
    (collect_readers_main
      { stage_ := some { pseudoRoot := rootA, paths := [("/Root/Xform", xformPrim)] },
        params_ := { prim_path_mask := "/Bad" } }).1.readers_ =
    (collect_readers_main
      { stage_ := some { pseudoRoot := rootA, paths := [("/Root/Xform", xformPrim)] },
        params_ := { prim_path_mask := "" } }).1.readers_ :=
  (usd_path_mask
    { stage_ := some { pseudoRoot := rootA, paths := [("/Root/Xform", xformPrim)] },
      params_ := { prim_path_mask := "/Bad" } }
    { pseudoRoot := rootA, paths := [("/Root/Xform", xformPrim)] }
    rfl (by decide)).2 rfl

/-- C8: a prim that gets no reader (equivalently, a non-imageable prim) and
is not merge-eligible returns nothing: its already-collected child readers
stay in the registry exactly as the child traversal left them — registered,
host objects created, parent reference never set.  The last conjunct runs a
whole stage (pseudo-root / Xform / non-imageable prim / mesh): the mesh
reader is dropped from the hierarchy (parent stays `none`, it is not
re-parented to the grandparent Xform reader) yet remains registered with its
object created. -/
theorem usd_unmatched_prim_drop :
    (∀ (p : Params) (d : PrimData) (b : Bool),
      create_reader_if_allowed p d b = none ↔ d.ty.isImageable = false) ∧
    (∀ (p : Params) (pt : Option PrimTy) (d : PrimData) (children : List Prim)
       (cids : List Nat) (st st1 : TravState),
      (d.ty.isImageable && (!include_by_purpose p d || !include_by_visibility p d)) = false →
      d.isPseudoRoot = false →
      collect_children p d.ty children st = (cids, st1) →
      (∀ cid, cids = [cid] →
        (merge_with_parent (st1.readers.getD cid default)).1 = false) →
      create_reader_if_allowed p d (pt == some .xform) = none →
      collect_readers_prim p pt (.mk d children) st = (none, st1)) ∧
    (collect_readers_prim P0 none rootC ⟨[]⟩ =
      (none, ⟨[{ kind := .mesh, primData := meshData, parentIsXform := false,
                 useParentXform := false, parent := none, refcount := 1,
                 objectCreated := true },
               { kind := .xform, primData := xformData, parentIsXform := false,
                 useParentXform := false, parent := none, refcount := 1,
                 objectCreated := true }]⟩)) := by
  refine ⟨?_, ?_, by decide⟩
  · intro p d b
    cases hty : d.ty <;>
      simp [create_reader_if_allowed, PrimTy.isImageable, hty] <;>
      split_ifs <;> simp_all
  · intro p pt d children cids st st1 h1 h2 h3 hm hcr
    rw [collect_readers_prim, h3]
    simp only [h1, h2, Bool.false_eq_true, if_false, if_true]
    rcases cids with _ | ⟨c0, _ | ⟨c1, rest⟩⟩
    · rw [finish_prim, hcr]
    · simp only [hm c0 rfl, Bool.false_eq_true, if_false]
      rw [finish_prim, hcr]
    · rw [finish_prim, hcr]

/-- Readers are created with reference count zero. -/
theorem create_reader_refcount (p : Params) (d : PrimData) (b : Bool) (r : Reader)
    (h : create_reader_if_allowed p d b = some r) : r.refcount = 0 := by
  unfold create_reader_if_allowed at h
  split_ifs at h <;> simp_all <;> subst h <;> rfl

/-- Updating a registry slot with a count-preserving function keeps every
count at one. -/
theorem set_update_refcount (f : Reader → Reader)
    (hf : ∀ r, (f r).refcount = r.refcount) (rs : List Reader) (cid : Nat)
    (h : ∀ r ∈ rs, r.refcount = 1) :
    ∀ r ∈ rs.set cid (f (rs.getD cid default)), r.refcount = 1 := by
  intro r hr
  by_cases hc : cid < rs.length
  · rcases List.mem_or_eq_of_mem_set hr with h1 | h1
    · exact h r h1
    · subst h1
      rw [hf, List.getD_eq_getElem _ _ hc]
      exact h _ (List.getElem_mem hc)
  · rw [List.set_eq_of_length_le (Nat.le_of_not_lt hc)] at hr
    exact h r hr

/-- The child parent-wiring loop preserves all-counts-one. -/
theorem wire_refcount (id : Nat) :
    ∀ (cids : List Nat) (rs : List Reader), (∀ r ∈ rs, r.refcount = 1) →
      ∀ r ∈ cids.foldl
        (fun rs cid => rs.set cid { rs.getD cid default with parent := some id }) rs,
        r.refcount = 1
  | [], rs, h => by simpa using h
  | c :: cs, rs, h => by
    rw [List.foldl_cons]
    exact wire_refcount id cs _
      (set_update_refcount (fun r => { r with parent := some id }) (fun r => rfl) rs c h)

/-- Registration increments the fresh reader's count to exactly one, so
`finish_prim` preserves all-counts-one. -/
theorem finish_prim_refcount (p : Params) (d : PrimData) (b : Bool)
    (cids : List Nat) (st : TravState) (h : ∀ r ∈ st.readers, r.refcount = 1) :
    ∀ r ∈ (finish_prim p d b cids st).2.readers, r.refcount = 1 := by
  unfold finish_prim
  cases hcr : create_reader_if_allowed p d b with
  | none => simpa using h
  | some r0 =>
    simp only
    apply wire_refcount
    intro r hr
    rcases List.mem_append.mp hr with h1 | h1
    · exact h r h1
    · simp only [List.mem_singleton] at h1
      subst h1
      simp [create_reader_refcount p d b r0 hcr]

mutual

/-- Every reader the traversal registers carries reference count one. -/
theorem refcount_inv_prim (p : Params) (pt : Option PrimTy) :
    ∀ (prim : Prim) (st : TravState), (∀ r ∈ st.readers, r.refcount = 1) →
      ∀ r ∈ (collect_readers_prim p pt prim st).2.readers, r.refcount = 1
  | .mk d children, st, h => by
    rw [collect_readers_prim]
    have hch := refcount_inv_children p d.ty children st h
    by_cases h1 :
        (d.ty.isImageable && (!include_by_purpose p d || !include_by_visibility p d)) = true
    · simpa [h1] using h
    · simp only [h1, Bool.false_eq_true, if_false]
      rcases hre : collect_children p d.ty children st with ⟨cids, st1⟩
      rw [hre] at hch
      by_cases h2 : d.isPseudoRoot = true
      · simpa [h2] using hch
      · simp only [h2, Bool.false_eq_true, if_false]
        rcases cids with _ | ⟨c0, _ | ⟨c1, rest⟩⟩
        · exact finish_prim_refcount p d (pt == some .xform) [] st1 hch
        · by_cases hmg : (merge_with_parent (st1.readers.getD c0 default)).1 = true
          · simp only [hmg, if_true]
            rw [(merge_with_parent_spec _).2.1 hmg]
            exact set_update_refcount (fun r => { r with useParentXform := true })
              (fun r => rfl) st1.readers c0 hch
          · simp only [hmg, Bool.false_eq_true, if_false]
            exact finish_prim_refcount p d (pt == some .xform) [c0] st1 hch
        · exact finish_prim_refcount p d (pt == some .xform) (c0 :: c1 :: rest) st1 hch

/-- The child loop preserves all-counts-one. -/
theorem refcount_inv_children (p : Params) (pt : PrimTy) :
    ∀ (cs : List Prim) (st : TravState), (∀ r ∈ st.readers, r.refcount = 1) →
      ∀ r ∈ (collect_children p pt cs st).2.readers, r.refcount = 1
  | [], st, h => by rw [collect_children]; exact h
  | c :: cs, st, h => by
    rw [collect_children]
    by_cases hc : (p.import_instance_proxies || !c.data.isInstanceProxy) = true
    · have h1 := refcount_inv_prim p (some pt) c st h
      have h2 := refcount_inv_children p pt cs (collect_readers_prim p (some pt) c st).2 h1
      simp only [hc, if_true]
      cases hres : (collect_readers_prim p (some pt) c st).1 <;>
        simp only [hres] <;> exact h2
    · simp only [hc, Bool.false_eq_true, if_false]
      exact refcount_inv_children p pt cs st h

end

/-- With every count at one, the decrement-and-filter pass of
`clear_readers` deletes every reader. -/
theorem clear_all_freed : ∀ (rs : List Reader), (∀ r ∈ rs, r.refcount = 1) →
    ((rs.map (fun r => { r with refcount := r.refcount - 1 })).filter
      (fun r => r.refcount == 0)) = rs.map (fun r => { r with refcount := 0 })
  | [], _ => rfl
  | r :: rs, h => by
    have h1 : r.refcount = 1 := h r (List.mem_cons_self r rs)
    simp only [List.map_cons, List.filter_cons, h1]
    simp [clear_all_freed rs (fun x hx => h x (List.mem_cons_of_mem r hx))]

/-- C5 counterexample: in the merge scenario the child reader retained by
the structural merge keeps reference count one — only registration ever
incremented it; the claimed extra increment on merge retention does not
happen. -/
theorem usd_refcount_merge_counterexample :
    ((collect_readers_prim P0 none rootA ⟨[]⟩).2.readers.map Reader.refcount = [1]) ∧
    ((collect_readers_prim P0 none rootA ⟨[]⟩).2.readers.getD 0 default).useParentXform
      = true ∧
    ¬ ((collect_readers_prim P0 none rootA ⟨[]⟩).2.readers.map Reader.refcount = [2]) := by
  decide

/-- C5 (amended): every reader is registered with reference count exactly
one (registration is the only increment; a merge retains the child without
touching its count); `clear_readers` decrements every count and deletes
exactly the readers reaching zero, so on any traversal-produced registry it
deallocates every registered reader and empties the registry, and a second
`clear_readers` is a no-op. -/
theorem usd_refcount_lifetime :
    (∀ (p : Params) (pt : Option PrimTy) (prim : Prim) (st : TravState),
      (∀ r ∈ st.readers, r.refcount = 1) →
      ∀ r ∈ (collect_readers_prim p pt prim st).2.readers, r.refcount = 1) ∧
    (∀ sr : StageReader, (∀ r ∈ sr.readers_, r.refcount = 1) →
      clear_readers sr =
        { sr with
          readers_ := [],
          freed := sr.freed ++ sr.readers_.map (fun r => { r with refcount := 0 }) }) ∧
    (∀ sr : StageReader, (clear_readers sr).readers_ = []) ∧
    (∀ sr : StageReader, clear_readers (clear_readers sr) = clear_readers sr) := by
  refine ⟨refcount_inv_prim, ?_, fun sr => rfl, ?_⟩
  · intro sr h
    simp only [clear_readers]
    rw [clear_all_freed sr.readers_ h]
  · intro sr
    simp [clear_readers]

/-- C5 witness: the amended lifetime theorem at a registry holding one
registered (count-one) reader — `clear_readers` deallocates it and empties
the registry. -/
theorem usd_refcount_lifetime_witness :
    clear_readers
      { stage_ := none, params_ := P0,
        readers_ := [{ kind := .mesh, primData := meshData,
                       parentIsXform := false, refcount := 1 }],
        freed := [] } =
      { stage_ := none, params_ := P0, readers_ := [],
        freed := [{ kind := .mesh, primData := meshData,
                    parentIsXform := false, refcount := 0 }] } :=
  usd_refcount_lifetime.2.1
    { stage_ := none, params_ := P0,
      readers_ := [{ kind := .mesh, primData := meshData,
                     parentIsXform := false, refcount := 1 }],
      freed := [] }
    (by decide)

/-- C8 witness: the drop frame evaluated at the concrete non-imageable prim
holding a mesh child — the mesh reader was registered (object created) but
the frame returns nothing, so no ancestor ever wires its parent. -/
theorem usd_unmatched_prim_drop_witness :
    collect_readers_prim P0 (some .xform) innerPrim ⟨[]⟩ =
      (none, ⟨[{ kind := .mesh, primData := meshData, parentIsXform := false,
                 useParentXform := false, parent := none, refcount := 1,
                 objectCreated := true }]⟩) :=
  usd_unmatched_prim_drop.2.1 P0 (some .xform) innerData [meshPrim] [0] ⟨[]⟩
    ⟨[{ kind := .mesh, primData := meshData, parentIsXform := false,
        useParentXform := false, parent := none, refcount := 1,
        objectCreated := true }]⟩
    (by decide) (by decide) (by decide)
    (by intro cid h; cases h; decide) (by decide)

end USD

namespace Keylist

/-- On a list sorted by `r`, `find?` returns the `r`-least satisfying
element: any other satisfying member equals it or lies `r`-after it. -/
theorem find_first_of_pairwise {α : Type} {r : α → α → Prop} {p : α → Bool} :
    ∀ {l : List α} {c : α}, l.Pairwise r → l.find? p = some c →
      ∀ c' ∈ l, p c' = true → c = c' ∨ r c c' := by
  intro l
  induction l with
  | nil => intro c _ hf; simp at hf
  | cons x xs ih =>
    intro c hp hf c' hmem hpc'
    by_cases hx : p x = true
    · rw [List.find?_cons_of_pos _ hx] at hf
      cases hf
      rcases List.mem_cons.mp hmem with h | h
      · exact Or.inl h.symm
      · exact Or.inr ((List.pairwise_cons.mp hp).1 c' h)
    · rw [List.find?_cons_of_neg _ hx] at hf
      rcases List.mem_cons.mp hmem with h | h
      · exact absurd (h ▸ hpc') hx
      · exact ih (List.pairwise_cons.mp hp).2 hf c' h hpc'

/-- The three columns of the spec's concrete query scenario. -/
def col1 : ActKeyColumn := { cfra := 1 }

def col5 : ActKeyColumn := { cfra := 5 }

def col10 : ActKeyColumn := { cfra := 10 }

/-- The index populated with columns at times 1.0, 5.0 and 10.0. -/
def kl3 : AnimKeylist := ⟨[col1, col5, col10]⟩

/-- C9: on every sorted index, `findExact` returns a member column at
exactly the queried time or none exists; `findNext` returns the first
member column strictly after the time (none exists otherwise); `findPrev`
the last member column strictly before it; `findAnyBetween` some member
column strictly between the bounds or none exists.  The final conjuncts
evaluate the spec's concrete scenario on the index {1.0, 5.0, 10.0}. -/
theorem keylist_query_correctness (kl : AnimKeylist) (t lo hi : ℚ)
    (h : kl.Sorted) :
    ((∀ c, ED_keylist_find_exact kl t = some c → c ∈ kl.columns ∧ c.cfra = t) ∧
     (ED_keylist_find_exact kl t = none → ∀ c ∈ kl.columns, c.cfra ≠ t)) ∧
    ((∀ c, ED_keylist_find_next kl t = some c → c ∈ kl.columns ∧ t < c.cfra ∧
        ∀ c' ∈ kl.columns, t < c'.cfra → c.cfra ≤ c'.cfra) ∧
     (ED_keylist_find_next kl t = none → ∀ c ∈ kl.columns, ¬ t < c.cfra)) ∧
    ((∀ c, ED_keylist_find_prev kl t = some c → c ∈ kl.columns ∧ c.cfra < t ∧
        ∀ c' ∈ kl.columns, c'.cfra < t → c'.cfra ≤ c.cfra) ∧
     (ED_keylist_find_prev kl t = none → ∀ c ∈ kl.columns, ¬ c.cfra < t)) ∧
    ((∀ c, ED_keylist_find_any_between kl lo hi = some c →
        c ∈ kl.columns ∧ lo < c.cfra ∧ c.cfra < hi) ∧
     (ED_keylist_find_any_between kl lo hi = none →
        ∀ c ∈ kl.columns, ¬ (lo < c.cfra ∧ c.cfra < hi))) ∧
    (ED_keylist_find_exact kl3 5 = some col5 ∧
     ED_keylist_find_next kl3 5 = some col10 ∧
     ED_keylist_find_prev kl3 5 = some col1 ∧
     ED_keylist_find_any_between kl3 5 10 = none ∧
     (ED_keylist_find_any_between kl3 0 10).isSome = true) := by
  refine ⟨⟨?_, ?_⟩, ⟨?_, ?_⟩, ⟨?_, ?_⟩, ⟨?_, ?_⟩,
    by decide, by decide, by decide, by decide, by decide⟩
  · intro c hc
    refine ⟨List.mem_of_find?_eq_some hc, ?_⟩
    have := List.find?_some hc
    simpa using this
  · intro hn c hcmem
    have := List.find?_eq_none.mp hn c hcmem
    simpa using this
  · intro c hc
    have hpc := List.find?_some hc
    refine ⟨List.mem_of_find?_eq_some hc, by simpa using hpc, ?_⟩
    intro c' hc' hlt
    rcases find_first_of_pairwise h hc c' hc' (by simpa using hlt) with he | hlt2
    · exact le_of_eq (congrArg ActKeyColumn.cfra he)
    · exact le_of_lt hlt2
  · intro hn c hcmem
    have := List.find?_eq_none.mp hn c hcmem
    simpa using this
  · intro c hc
    have hpc := List.find?_some hc
    have hrev : kl.columns.reverse.Pairwise (fun a b => b.cfra < a.cfra) :=
      List.pairwise_reverse.mpr h
    refine ⟨List.mem_reverse.mp (List.mem_of_find?_eq_some hc),
      by simpa using hpc, ?_⟩
    intro c' hc' hlt
    rcases find_first_of_pairwise hrev hc c' (List.mem_reverse.mpr hc')
        (by simpa using hlt) with he | hlt2
    · exact le_of_eq (congrArg ActKeyColumn.cfra he).symm
    · exact le_of_lt hlt2
  · intro hn c hcmem
    have := List.find?_eq_none.mp hn c (List.mem_reverse.mpr hcmem)
    simpa using this
  · intro c hc
    have hpc := List.find?_some hc
    simp only [Bool.and_eq_true, decide_eq_true_eq] at hpc
    exact ⟨List.mem_of_find?_eq_some hc, hpc.1, hpc.2⟩
  · intro hn c hcmem
    have := List.find?_eq_none.mp hn c hcmem
    simpa using this

/-- C9 witness: the query-correctness theorem applied to the sorted concrete
index {1.0, 5.0, 10.0}, yielding the spec's five concrete query results. -/
theorem keylist_query_correctness_witness :
    ED_keylist_find_exact kl3 5 = some col5 ∧
    ED_keylist_find_next kl3 5 = some col10 ∧
    ED_keylist_find_prev kl3 5 = some col1 ∧
    ED_keylist_find_any_between kl3 5 10 = none ∧
    (ED_keylist_find_any_between kl3 0 10).isSome = true :=
  (keylist_query_correctness kl3 5 5 10 (by decide)).2.2.2.2

/-- C10: the handle-visualization categories carry strictly increasing
enumerant values in the order none < auto-clamped < auto < vector <
aligned < free, and the merge rule picks the highest-priority (maximal
enumerant) category of the two contributions — in particular AUTO merged
with VECTOR yields VECTOR. -/
theorem keylist_handle_priority :
    (eKeyframeHandleDrawOpts.KEYFRAME_HANDLE_NONE.val <
       eKeyframeHandleDrawOpts.KEYFRAME_HANDLE_AUTO_CLAMP.val ∧
     eKeyframeHandleDrawOpts.KEYFRAME_HANDLE_AUTO_CLAMP.val <
       eKeyframeHandleDrawOpts.KEYFRAME_HANDLE_AUTO.val ∧
     eKeyframeHandleDrawOpts.KEYFRAME_HANDLE_AUTO.val <
       eKeyframeHandleDrawOpts.KEYFRAME_HANDLE_VECTOR.val ∧
     eKeyframeHandleDrawOpts.KEYFRAME_HANDLE_VECTOR.val <
       eKeyframeHandleDrawOpts.KEYFRAME_HANDLE_ALIGNED.val ∧
     eKeyframeHandleDrawOpts.KEYFRAME_HANDLE_ALIGNED.val <
       eKeyframeHandleDrawOpts.KEYFRAME_HANDLE_FREE.val) ∧
    (∀ a b : eKeyframeHandleDrawOpts,
      (merge_handle_type a b).val = max a.val b.val) ∧
    (∀ a b : eKeyframeHandleDrawOpts,
      merge_handle_type a b = a ∨ merge_handle_type a b = b) ∧
    merge_handle_type .KEYFRAME_HANDLE_AUTO .KEYFRAME_HANDLE_VECTOR =
      .KEYFRAME_HANDLE_VECTOR := by
  decide

end Keylist
